import Mathlib

/-!
Verification development for the opskit CLI's connection/configuration
resolution and discovery engine (`skills/_shared/preflight.py` and
`skills/_shared/flow_helpers.py`), shallowly embedded in Lean.

Python dicts with string keys are embedded as association lists where
assignment replaces the binding in place (`ainsert`) and lookup returns the
first binding (`alookup`); Python truthiness of an optional string
(`None` and `""` are falsy) is `truthy`.
-/

/-- A Python `dict[str, str]` as an association list (unique keys in any
dict produced by Python; lookup takes the first binding). -/
abbrev Dict := List (String × String)

/-- `d.get(k)`: first binding of `k`, if any. -/
def alookup {α : Type} (k : String) : List (String × α) → Option α
  | [] => none
  | p :: rest => if p.1 = k then some p.2 else alookup k rest

/-- `d[k] = v`: replace the binding of `k` in place, or append it. -/
def ainsert {α : Type} (k : String) (v : α) : List (String × α) → List (String × α)
  | [] => [(k, v)]
  | p :: rest => if p.1 = k then (k, v) :: rest else p :: ainsert k v rest

/-- Python truthiness of an optional string: `None` and `""` are falsy. -/
def truthy : Option String → Bool
  | none => false
  | some s => !(s == "")

/-- Python `a or b` on optional strings (used for `workspace ... or config ...`). -/
def pyOrOpt (a b : Option String) : Option String :=
  if truthy a then a else b

/-- Python `a or b` where `a` is an optional string and `b` a string default. -/
def pyOrStr (a : Option String) (b : String) : String :=
  match a with
  | none => b
  | some s => if s == "" then b else s

theorem alookup_ainsert_self {α : Type} (k : String) (v : α)
    (d : List (String × α)) : alookup k (ainsert k v d) = some v := by
  induction d with
  | nil => simp [ainsert, alookup]
  | cons p rest ih =>
    by_cases h : p.1 = k <;> simp [ainsert, alookup, h, ih]

theorem alookup_ainsert_ne {α : Type} (k q : String) (v : α)
    (d : List (String × α)) (h : k ≠ q) :
    alookup q (ainsert k v d) = alookup q d := by
  induction d with
  | nil => simp [ainsert, alookup, h]
  | cons p rest ih =>
    by_cases hp : p.1 = k
    · simp [ainsert, alookup, hp, h, Ne.symm h]
    · by_cases hq : p.1 = q <;> simp [ainsert, alookup, hp, hq, ih, Ne.symm h]

theorem alookup_some_mem {α : Type} {k : String} {v : α}
    {d : List (String × α)} (h : alookup k d = some v) : (k, v) ∈ d := by
  induction d with
  | nil => simp [alookup] at h
  | cons p rest ih =>
    obtain ⟨a, b⟩ := p
    by_cases hp : a = k
    · simp only [alookup, hp, if_pos] at h
      injection h with h
      subst hp
      subst h
      exact List.mem_cons_self _ _
    · simp [alookup, hp] at h
      exact List.mem_cons_of_mem _ (ih h)

theorem alookup_eq_of_mem_nodup {α : Type} {k : String} {v : α}
    {d : List (String × α)} (hnd : (d.map Prod.fst).Nodup)
    (hm : (k, v) ∈ d) : alookup k d = some v := by
  induction d with
  | nil => simp at hm
  | cons p rest ih =>
    simp only [List.map_cons, List.nodup_cons] at hnd
    rcases List.mem_cons.mp hm with h | h
    · rw [← h]
      simp [alookup]
    · have hp : p.1 ≠ k := by
        intro hk
        exact hnd.1 (hk ▸ List.mem_map_of_mem Prod.fst h)
      simp [alookup, hp]
      exact ih hnd.2 h

theorem alookup_none_not_mem {α : Type} {k : String}
    {d : List (String × α)} (h : alookup k d = none) :
    ∀ v : α, (k, v) ∉ d := by
  induction d with
  | nil => simp
  | cons p rest ih =>
    by_cases hp : p.1 = k
    · simp [alookup, hp] at h
    · simp only [alookup, hp, if_false] at h
      intro v hm
      rcases List.mem_cons.mp hm with he | he
      · exact hp (by rw [← he])
      · exact ih h v he

/-!
## Connection resolution (`preflight.py`, `resolve_connection`)

The three persisted documents are passed in explicitly: the connection
store (`connections.json`: provider → name → field map), the workspace
document (`ops/opskit.json`: provider → connection name, plus an optional
top-level `environment_url`), the global config (`config.json`:
provider → default connection name), and the process environment.
-/

/-- `connections.json`: provider → connection name → field map. -/
abbrev ConnStore := List (String × List (String × Dict))

/-- The workspace document `ops/opskit.json`; an absent or empty
`environment_url` is represented by `""` (the code only tests truthiness). -/
structure Workspace where
  connections : List (String × String)
  environment_url : String
deriving DecidableEq

/-- The global config `config.json` (its `"defaults"` mapping). -/
structure Config where
  defaults : List (String × String)
deriving DecidableEq

/-- `conn_name = workspace.get("connections", {}).get(provider) or
config.get("defaults", {}).get(provider)`. -/
def selectConnName (workspace : Workspace) (config : Config)
    (provider : String) : Option String :=
  pyOrOpt (alookup provider workspace.connections)
    (alookup provider config.defaults)

/-- `conn = {}` then, when `conn_name` is truthy,
`conn = connections.get(provider, {}).get(conn_name, {})`. -/
def namedConn (connections : ConnStore) (workspace : Workspace)
    (config : Config) (provider : String) : Dict :=
  match selectConnName workspace config provider with
  | none => []
  | some n =>
    if n = "" then []
    else (alookup n ((alookup provider connections).getD [])).getD []

/-- `dict.setdefault(k, v)`: insert only when the key is absent
(presence-based, not truthiness-based). -/
def dsetdefault (conn : Dict) (k v : String) : Dict :=
  match alookup k conn with
  | some _ => conn
  | none => ainsert k v conn

/-- `if provider == "dataverse" and workspace.get("environment_url"):
conn.setdefault("environment_url", workspace["environment_url"])`. -/
def withWorkspaceEnvUrl (conn : Dict) (workspace : Workspace)
    (provider : String) : Dict :=
  if provider = "dataverse" && !(workspace.environment_url == "") then
    dsetdefault conn "environment_url" workspace.environment_url
  else conn

/-- `if not conn.get(k): conn[k] = v` — fill a field only when it is
empty (absent or `""`). -/
def fillIfEmpty (conn : Dict) (k v : String) : Dict :=
  if truthy (alookup k conn) then conn else ainsert k v conn

/-- The Jira-only environment-variable fallback tier:
each of the three fields is filled from its variable (with default `""`)
when still empty. -/
def envFill (conn : Dict) (env : Dict) (provider : String) : Dict :=
  if provider = "jira" then
    fillIfEmpty
      (fillIfEmpty
        (fillIfEmpty conn "server" ((alookup "JIRA_SERVER" env).getD ""))
        "email" ((alookup "JIRA_EMAIL" env).getD ""))
      "api_token" ((alookup "JIRA_API_TOKEN" env).getD "")
  else conn

/-- `for k, v in cli_overrides.items(): if v: conn[k] = v` — CLI
overrides are applied last; falsy (empty) values are skipped. -/
def applyOverrides (conn : Dict) (cli_overrides : Dict) : Dict :=
  cli_overrides.foldl
    (fun c kv => if kv.2 = "" then c else ainsert kv.1 kv.2 c) conn

/-- The named connection (tier 2 or 3) after the dataverse workspace
`environment_url` overlay. -/
def tierConn (connections : ConnStore) (workspace : Workspace)
    (config : Config) (provider : String) : Dict :=
  withWorkspaceEnvUrl (namedConn connections workspace config provider)
    workspace provider

/-- The resolved connection before CLI overrides are applied. -/
def preOverrideConn (connections : ConnStore) (workspace : Workspace)
    (config : Config) (env : Dict) (provider : String) : Dict :=
  envFill (tierConn connections workspace config provider) env provider

/-- `resolve_connection(provider, cli_overrides)` with the three stores
and the environment passed explicitly. -/
def resolve_connection (connections : ConnStore) (workspace : Workspace)
    (config : Config) (env : Dict) (provider : String)
    (cli_overrides : Dict) : Dict :=
  applyOverrides (preOverrideConn connections workspace config env provider)
    cli_overrides

/-!
## Field-preservation lemmas for the resolution tiers
-/

theorem alookup_fillIfEmpty_of_truthy (conn : Dict) (f v k : String)
    (h : truthy (alookup k conn) = true) :
    alookup k (fillIfEmpty conn f v) = alookup k conn := by
  unfold fillIfEmpty
  by_cases hf : f = k
  · subst hf
    simp [h]
  · split
    · rfl
    · exact alookup_ainsert_ne f k v conn hf

theorem alookup_fillIfEmpty_ne (conn : Dict) (f v k : String)
    (h : f ≠ k) : alookup k (fillIfEmpty conn f v) = alookup k conn := by
  unfold fillIfEmpty
  split
  · rfl
  · exact alookup_ainsert_ne f k v conn h

theorem alookup_fillIfEmpty_self (conn : Dict) (f v : String)
    (h : truthy (alookup f conn) = false) :
    alookup f (fillIfEmpty conn f v) = some v := by
  unfold fillIfEmpty
  rw [h]
  simp [alookup_ainsert_self]

theorem alookup_envFill_of_truthy (conn : Dict) (env : Dict)
    (provider k : String) (h : truthy (alookup k conn) = true) :
    alookup k (envFill conn env provider) = alookup k conn := by
  unfold envFill
  split
  · have h1 := alookup_fillIfEmpty_of_truthy conn "server"
      ((alookup "JIRA_SERVER" env).getD "") k h
    have ht1 : truthy (alookup k
        (fillIfEmpty conn "server" ((alookup "JIRA_SERVER" env).getD ""))) = true := by
      rw [h1]; exact h
    have h2 := alookup_fillIfEmpty_of_truthy _ "email"
      ((alookup "JIRA_EMAIL" env).getD "") k ht1
    have ht2 : truthy (alookup k
        (fillIfEmpty (fillIfEmpty conn "server" ((alookup "JIRA_SERVER" env).getD ""))
          "email" ((alookup "JIRA_EMAIL" env).getD ""))) = true := by
      rw [h2]; exact ht1
    have h3 := alookup_fillIfEmpty_of_truthy _ "api_token"
      ((alookup "JIRA_API_TOKEN" env).getD "") k ht2
    rw [h3, h2, h1]
  · rfl

theorem alookup_dsetdefault_of_some (conn : Dict) (f u k v : String)
    (h : alookup k conn = some v) :
    alookup k (dsetdefault conn f u) = some v := by
  unfold dsetdefault
  by_cases hf : f = k
  · subst hf
    rw [h]
    exact h
  · cases hl : alookup f conn
    · simpa [alookup_ainsert_ne f k u conn hf] using h
    · exact h

theorem alookup_withWorkspaceEnvUrl_of_some (conn : Dict)
    (workspace : Workspace) (provider k v : String)
    (h : alookup k conn = some v) :
    alookup k (withWorkspaceEnvUrl conn workspace provider) = some v := by
  unfold withWorkspaceEnvUrl
  split
  · exact alookup_dsetdefault_of_some conn "environment_url"
      workspace.environment_url k v h
  · exact h

theorem applyOverrides_cons (conn : Dict) (p : String × String)
    (rest : Dict) :
    applyOverrides conn (p :: rest) =
      applyOverrides (if p.2 = "" then conn else ainsert p.1 p.2 conn) rest := rfl

theorem applyOverrides_preserve (conn : Dict) (cli_overrides : Dict)
    (k : String) (h : ∀ v, (k, v) ∈ cli_overrides → v = "") :
    alookup k (applyOverrides conn cli_overrides) = alookup k conn := by
  induction cli_overrides generalizing conn with
  | nil => rfl
  | cons p rest ih =>
    have hrest : ∀ v, (k, v) ∈ rest → v = "" :=
      fun v hv => h v (List.mem_cons_of_mem _ hv)
    rw [applyOverrides_cons]
    by_cases hp : p.1 = k
    · have hp2 : p.2 = "" := by
        apply h p.2
        have : p = (k, p.2) := by
          cases p; simp_all
        rw [← this]
        exact List.mem_cons_self _ _
      rw [if_pos hp2]
      exact ih conn hrest
    · by_cases hv : p.2 = ""
      · rw [if_pos hv]
        exact ih conn hrest
      · rw [if_neg hv, ih _ hrest, alookup_ainsert_ne p.1 k p.2 conn hp]

theorem applyOverrides_set (conn : Dict) (cli_overrides : Dict)
    (k v : String) (hnd : (cli_overrides.map Prod.fst).Nodup)
    (hm : (k, v) ∈ cli_overrides) (hv : v ≠ "") :
    alookup k (applyOverrides conn cli_overrides) = some v := by
  induction cli_overrides generalizing conn with
  | nil => simp at hm
  | cons p rest ih =>
    simp only [List.map_cons, List.nodup_cons] at hnd
    rw [applyOverrides_cons]
    rcases List.mem_cons.mp hm with he | he
    · have hknotin : ∀ w, (k, w) ∈ rest → w = "" := by
        intro w hw
        exact absurd (by simpa [← he] using List.mem_map_of_mem Prod.fst hw) hnd.1
      rw [← he, if_neg hv,
        applyOverrides_preserve (ainsert k v conn) rest k hknotin,
        alookup_ainsert_self]
    · have hp : p.1 ≠ k := by
        intro hk
        exact hnd.1 (hk ▸ List.mem_map_of_mem Prod.fst he)
      by_cases hv2 : p.2 = ""
      · rw [if_pos hv2]
        exact ih conn hnd.2 he
      · rw [if_neg hv2]
        exact ih _ hnd.2 he

/-!
## Claims about `resolve_connection`
-/

/-- C2: a field set by a higher precedence tier is never overwritten by a
lower tier: (1) a truthy CLI override for a field is the resolved value of
that field; (2) when no truthy CLI override names the field, a truthy field
of the selected named connection (after the dataverse workspace overlay)
survives the environment-variable tier unchanged; (3) the workspace
`environment_url` overlay never changes a field the named connection
already binds; (4) a truthy workspace connection name takes precedence
over the global default name. -/
theorem resolve_connection_higher_tier_wins (connections : ConnStore)
    (workspace : Workspace) (config : Config) (env : Dict)
    (provider : String) (cli_overrides : Dict) (k : String)
    (hnd : (cli_overrides.map Prod.fst).Nodup) :
    (∀ v, alookup k cli_overrides = some v → v ≠ "" →
      alookup k (resolve_connection connections workspace config env
        provider cli_overrides) = some v)
    ∧ (truthy (alookup k cli_overrides) = false →
      truthy (alookup k (tierConn connections workspace config provider)) = true →
      alookup k (resolve_connection connections workspace config env
          provider cli_overrides) =
        alookup k (tierConn connections workspace config provider))
    ∧ (∀ v, alookup k (namedConn connections workspace config provider) = some v →
      alookup k (tierConn connections workspace config provider) = some v)
    ∧ (truthy (alookup provider workspace.connections) = true →
      selectConnName workspace config provider =
        alookup provider workspace.connections) := by
  refine ⟨?_, ?_, ?_, ?_⟩
  · intro v hv hv'
    exact applyOverrides_set _ cli_overrides k v hnd (alookup_some_mem hv) hv'
  · intro ho hb
    have hall : ∀ v, (k, v) ∈ cli_overrides → v = "" := by
      intro v hm
      have := alookup_eq_of_mem_nodup hnd hm
      rw [this] at ho
      simp [truthy] at ho
      exact ho
    unfold resolve_connection preOverrideConn
    rw [applyOverrides_preserve _ _ _ hall]
    exact alookup_envFill_of_truthy _ env provider k hb
  · intro v hv
    exact alookup_withWorkspaceEnvUrl_of_some _ workspace provider k v hv
  · intro hw
    unfold selectConnName pyOrOpt
    rw [if_pos hw]

/-- Witness for `resolve_connection_higher_tier_wins`: a truthy CLI
override for `api_token` wins over the store and environment. -/
theorem resolve_connection_higher_tier_wins_witness :
    alookup "api_token"
      (resolve_connection [("jira", [("main", [("server", "S")])])]
        ⟨[], ""⟩ ⟨[("jira", "main")]⟩ [("JIRA_API_TOKEN", "tok")]
        "jira" [("api_token", "T")]) = some "T" :=
  (resolve_connection_higher_tier_wins
      [("jira", [("main", [("server", "S")])])] ⟨[], ""⟩
      ⟨[("jira", "main")]⟩ [("JIRA_API_TOKEN", "tok")] "jira"
      [("api_token", "T")] "api_token" (by decide)).1
    "T" (by decide) (by decide)

/-- C1 counterexample: with the workspace naming connection `ws`
(which has only `server`) and the global default naming `main`
(which has `email = "E"`), the resolved `email` is `""` (filled from the
empty environment), not `"E"`: the tier-3 global-default connection is
not consulted field-wise once tier 2 names a connection. -/
theorem resolve_connection_skips_global_default_record :
    alookup "email"
      (resolve_connection
        [("jira", [("ws", [("server", "S")]), ("main", [("email", "E")])])]
        ⟨[("jira", "ws")], ""⟩ ⟨[("jira", "main")]⟩ [] "jira" []) = some ""
    ∧ alookup "email"
        (resolve_connection
          [("jira", [("ws", [("server", "S")]), ("main", [("email", "E")])])]
          ⟨[("jira", "ws")], ""⟩ ⟨[("jira", "main")]⟩ [] "jira" []) ≠ some "E" := by
  constructor
  · decide
  · decide

/-- C1 amended: `resolve_connection` selects a single named connection —
the global-default name is consulted only when the workspace names none —
and the field-wise overlay holds between that selected connection and the
environment-variable tier: for Jira, a field the selected connection
leaves empty is filled from its environment variable (default `""`). -/
theorem resolve_connection_envvar_overlay_fieldwise
    (connections : ConnStore) (workspace : Workspace) (config : Config)
    (env : Dict) (k evar : String)
    (hk : (k, evar) ∈ [("server", "JIRA_SERVER"), ("email", "JIRA_EMAIL"),
      ("api_token", "JIRA_API_TOKEN")])
    (hempty : truthy (alookup k
      (namedConn connections workspace config "jira")) = false) :
    alookup k (resolve_connection connections workspace config env "jira" []) =
      some ((alookup evar env).getD "")
    ∧ ∀ provider, truthy (alookup provider workspace.connections) = true →
        selectConnName workspace config provider =
          alookup provider workspace.connections := by
  constructor
  · have htc : tierConn connections workspace config "jira" =
        namedConn connections workspace config "jira" := by
      unfold tierConn withWorkspaceEnvUrl
      simp
    show alookup k (applyOverrides (envFill
      (tierConn connections workspace config "jira") env "jira") []) = _
    rw [htc]
    set base := namedConn connections workspace config "jira" with hbase
    show alookup k (envFill base env "jira") = _
    unfold envFill
    rw [if_pos rfl]
    simp only [List.mem_cons, Prod.mk.injEq, List.not_mem_nil, or_false] at hk
    rcases hk with ⟨hk1, hk2⟩ | ⟨hk1, hk2⟩ | ⟨hk1, hk2⟩ <;> subst hk1 <;> subst hk2
    · rw [alookup_fillIfEmpty_ne _ "api_token" _ "server" (by decide),
        alookup_fillIfEmpty_ne _ "email" _ "server" (by decide)]
      exact alookup_fillIfEmpty_self base "server" _ hempty
    · rw [alookup_fillIfEmpty_ne _ "api_token" _ "email" (by decide)]
      have hs : alookup "email"
          (fillIfEmpty base "server" ((alookup "JIRA_SERVER" env).getD "")) =
          alookup "email" base :=
        alookup_fillIfEmpty_ne base "server" _ "email" (by decide)
      apply alookup_fillIfEmpty_self
      rw [hs]
      exact hempty
    · have hs : alookup "api_token"
          (fillIfEmpty base "server" ((alookup "JIRA_SERVER" env).getD "")) =
          alookup "api_token" base :=
        alookup_fillIfEmpty_ne base "server" _ "api_token" (by decide)
      have he : alookup "api_token"
          (fillIfEmpty (fillIfEmpty base "server"
            ((alookup "JIRA_SERVER" env).getD "")) "email"
            ((alookup "JIRA_EMAIL" env).getD "")) =
          alookup "api_token" base := by
        rw [alookup_fillIfEmpty_ne _ "email" _ "api_token" (by decide), hs]
      apply alookup_fillIfEmpty_self
      rw [he]
      exact hempty
  · intro provider hw
    unfold selectConnName pyOrOpt
    rw [if_pos hw]

/-- Witness for `resolve_connection_envvar_overlay_fieldwise`: with no
named connection, `email` is filled from `JIRA_EMAIL`. -/
theorem resolve_connection_envvar_overlay_fieldwise_witness :
    alookup "email"
      (resolve_connection [] ⟨[], ""⟩ ⟨[]⟩ [("JIRA_EMAIL", "E")] "jira" []) =
      some "E" :=
  (resolve_connection_envvar_overlay_fieldwise [] ⟨[], ""⟩ ⟨[]⟩
    [("JIRA_EMAIL", "E")] "email" "JIRA_EMAIL" (by decide) (by decide)).1

/-- C10: a CLI override whose value is the empty string is ignored — the
field keeps the value resolved from the lower tiers. -/
theorem resolve_connection_empty_override_ignored (connections : ConnStore)
    (workspace : Workspace) (config : Config) (env : Dict)
    (provider : String) (cli_overrides : Dict) (k : String)
    (hnd : (cli_overrides.map Prod.fst).Nodup)
    (h : alookup k cli_overrides = some "") :
    alookup k (resolve_connection connections workspace config env
        provider cli_overrides) =
      alookup k (preOverrideConn connections workspace config env provider) := by
  have hall : ∀ v, (k, v) ∈ cli_overrides → v = "" := by
    intro v hm
    have h2 := alookup_eq_of_mem_nodup hnd hm
    rw [h] at h2
    exact (Option.some.inj h2).symm
  exact applyOverrides_preserve _ _ _ hall

/-- Witness for `resolve_connection_empty_override_ignored`: an empty
`--server` override does not blank the env-var-resolved server. -/
theorem resolve_connection_empty_override_ignored_witness :
    alookup "server"
      (resolve_connection [] ⟨[], ""⟩ ⟨[]⟩ [("JIRA_SERVER", "S")] "jira"
        [("server", "")]) =
      alookup "server" (preOverrideConn [] ⟨[], ""⟩ ⟨[]⟩
        [("JIRA_SERVER", "S")] "jira") :=
  resolve_connection_empty_override_ignored [] ⟨[], ""⟩ ⟨[]⟩
    [("JIRA_SERVER", "S")] "jira" [("server", "")] "server"
    (by decide) (by decide)

/-!
## Provider readiness checks (`preflight.py`, `check_jira` / `check_ado` /
`check_dataverse`)

External probes (subprocess and filesystem results) are passed in as
parameters: `vpy` is `_venv_python()` (the interpreter path, if the venv
exists; a non-`None` path is always truthy), `pkgs` is
`_venv_has_packages()`, `az_found` is `_az_cli_available()`, `ext_ok` is
`_az_devops_extension_installed()`, and `az_user` is `_az_logged_in()`
(the account name, or `None`). The resolved connection `conn` is passed
in place of the internal `resolve_connection` call, and `root` stands for
`PLUGIN_ROOT`.
-/

/-- An atomic readiness check: `Check(name, passed, detail)`. -/
structure Check where
  name : String
  passed : Bool
  detail : String
deriving DecidableEq

/-- `ProviderStatus(name, ready, checks, instructions)`. -/
structure ProviderStatus where
  name : String
  ready : Bool
  checks : List Check
  instructions : String
deriving DecidableEq

/-- `_TOKEN_CREATE_URL`. -/
def tokenCreateUrl : String :=
  "https://id.atlassian.com/manage-profile/security/api-tokens"

/-- Structural prefix test on strings (kernel-evaluable). -/
def strHasPrefix (s pat : String) : Bool := pat.toList.isPrefixOf s.toList

/-- One numbered remediation line, `f"  {step}. {text}"`. -/
def stepLine (n : Nat) (t : String) : String :=
  "  " ++ toString n ++ ". " ++ t

/-- The fixed Jira remediation block (built whenever `ready` is false,
independently of which checks failed, and with no step numbering). -/
def jiraInstructionLines (root : String) : List String :=
  ["To configure Jira:",
   "  python3 " ++ root ++ "/scripts/bootstrap.py add-connection jira <name>",
   "",
   "Or set environment variables:",
   "  JIRA_SERVER=https://yourcompany.atlassian.net",
   "  JIRA_EMAIL=you@company.com",
   "  JIRA_API_TOKEN=<token>",
   "  Create a token at: " ++ tokenCreateUrl]

/-- `check_jira()` given the resolved connection. -/
def check_jira (root : String) (conn : Dict) : ProviderStatus :=
  let has_server := truthy (alookup "server" conn)
  let has_email := truthy (alookup "email" conn)
  let has_token := truthy (alookup "api_token" conn)
  let checks : List Check :=
    [⟨"Server URL", has_server,
      if has_server then (alookup "server" conn).getD "" else "not configured"⟩,
     ⟨"Email", has_email,
      if has_email then (alookup "email" conn).getD "" else "not configured"⟩,
     ⟨"API token", has_token,
      if has_token then "configured" else "not configured"⟩]
  let ready := has_server && has_email && has_token
  ⟨"jira", ready, checks,
   if ready then "" else String.intercalate "\n" (jiraInstructionLines root)⟩

/-- Azure DevOps remediation step texts (the f-string bodies). -/
def adoStepInstallCli : String :=
  "Install Azure CLI: https://aka.ms/install-azure-cli"

def adoStepAddExt : String := "az extension add --name azure-devops"

def stepAzLogin : String := "az login"

def adoStepAddConn (root : String) : String :=
  "python3 " ++ root ++ "/scripts/bootstrap.py add-connection ado <name>"

/-- The ADO remediation lines: a step-counter walk over the failed
prerequisites, mirroring the `step` variable in the source. -/
def adoInstructionLines (root : String) (az_found ext_ok : Bool)
    (az_user : Option String) (has_org has_project : Bool) : List String :=
  let lines := ["To configure Azure DevOps:"]
  let step := 1
  let (lines, step) :=
    if !az_found then (lines ++ [stepLine step adoStepInstallCli], step + 1)
    else (lines, step)
  let (lines, step) :=
    if !ext_ok then (lines ++ [stepLine step adoStepAddExt], step + 1)
    else (lines, step)
  let (lines, step) :=
    if !(truthy az_user) then (lines ++ [stepLine step stepAzLogin], step + 1)
    else (lines, step)
  let lines :=
    if !has_org || !has_project then lines ++ [stepLine step (adoStepAddConn root)]
    else lines
  lines

/-- `check_ado()` given the resolved connection and probe outcomes. -/
def check_ado (root : String) (conn : Dict) (az_found ext_ok : Bool)
    (az_user : Option String) : ProviderStatus :=
  let has_org := truthy (alookup "organization" conn)
  let has_project := truthy (alookup "project" conn)
  let checks : List Check :=
    [⟨"Azure CLI", az_found, if az_found then "installed" else "not found"⟩,
     ⟨"azure-devops extension", ext_ok,
      if ext_ok then "installed" else "not installed"⟩,
     ⟨"Azure CLI login", az_user.isSome, pyOrStr az_user "not logged in"⟩,
     ⟨"Organization", has_org,
      (alookup "organization" conn).getD "not configured"⟩,
     ⟨"Project", has_project,
      (alookup "project" conn).getD "not configured"⟩]
  let ready := checks.all (fun c => c.passed)
  ⟨"ado", ready, checks,
   if ready then ""
   else String.intercalate "\n"
     (adoInstructionLines root az_found ext_ok az_user has_org has_project)⟩

/-- Dataverse remediation step texts. -/
def dvStepSetup (root : String) : String :=
  "python3 " ++ root ++ "/scripts/bootstrap.py setup"

def dvStepAddConn (root : String) : String :=
  "python3 " ++ root ++ "/scripts/bootstrap.py add-connection dataverse <name>"

/-- The Dataverse remediation lines (step-counter walk, as in source). -/
def dataverseInstructionLines (root : String) (vpy : Option String)
    (pkgs : Bool) (az_user : Option String) (has_tenant : Bool) : List String :=
  let lines := ["To configure Dataverse:"]
  let step := 1
  let (lines, step) :=
    if !vpy.isSome || !pkgs then (lines ++ [stepLine step (dvStepSetup root)], step + 1)
    else (lines, step)
  let (lines, step) :=
    if !(truthy az_user) then (lines ++ [stepLine step stepAzLogin], step + 1)
    else (lines, step)
  let lines :=
    if !has_tenant then lines ++ [stepLine step (dvStepAddConn root)]
    else lines
  lines

/-- `check_dataverse()` given the resolved connection and probe outcomes. -/
def check_dataverse (root : String) (conn : Dict) (vpy : Option String)
    (pkgs : Bool) (az_user : Option String) : ProviderStatus :=
  let has_tenant := truthy (alookup "tenant_id" conn)
  let has_env_url := truthy (alookup "environment_url" conn)
  let checks : List Check :=
    [⟨"Virtual environment", vpy.isSome,
      match vpy with | some p => p | none => "not created"⟩,
     ⟨"Dataverse packages", pkgs,
      if pkgs then "installed"
      else "missing (azure-identity, PowerPlatform-Dataverse-Client)"⟩,
     ⟨"Azure CLI login", az_user.isSome, pyOrStr az_user "not logged in"⟩,
     ⟨"Tenant ID", has_tenant,
      (alookup "tenant_id" conn).getD "not configured"⟩,
     ⟨"Environment URL", has_env_url,
      (alookup "environment_url" conn).getD "set per workspace in ops/opskit.json"⟩]
  let ready := vpy.isSome && pkgs && az_user.isSome
  ⟨"dataverse", ready, checks,
   if ready then ""
   else String.intercalate "\n"
     (dataverseInstructionLines root vpy pkgs az_user has_tenant)⟩

/-- C3: dataverse readiness is exactly venv-exists ∧ packages ∧ login;
the Tenant ID and Environment URL checks appear in the list (positions 4
and 5) with pass/fail reflecting the connection fields but never gating
`ready`; in particular, with conn `[]` (both absent) and the first three
passing, `ready` is `true`. -/
theorem check_dataverse_ready_iff (root : String) (conn : Dict)
    (vpy : Option String) (pkgs : Bool) (az_user : Option String) :
    (check_dataverse root conn vpy pkgs az_user).ready =
      (vpy.isSome && pkgs && az_user.isSome)
    ∧ (check_dataverse root conn vpy pkgs az_user).checks.map Check.name =
      ["Virtual environment", "Dataverse packages", "Azure CLI login",
       "Tenant ID", "Environment URL"]
    ∧ (check_dataverse root conn vpy pkgs az_user).checks.map Check.passed =
      [vpy.isSome, pkgs, az_user.isSome,
       truthy (alookup "tenant_id" conn),
       truthy (alookup "environment_url" conn)]
    ∧ (check_dataverse root [] (some "/v/bin/python3") true (some "u")).ready = true
    ∧ (check_dataverse root [] (some "/v/bin/python3") true
        (some "u")).checks.map Check.passed = [true, true, true, false, false] :=
  ⟨rfl, rfl, rfl, rfl, rfl⟩

/-!
## Remediation rendering (claim C8)

`numberLines` is the spec-side rendering: consecutive step numbers from 1
over exactly the steps whose prerequisite failed.
-/

/-- Render a list of step texts as consecutively numbered lines `1.`, `2.`, … -/
def numberLines (ts : List String) : List String :=
  ts.enum.map (fun p => stepLine (p.1 + 1) p.2)

/-- The ADO remediation steps whose prerequisite check failed, in source
order (`azSome` is the verdict of the login check). -/
def adoFailedSteps (root : String) (az_found ext_ok azSome has_org
    has_project : Bool) : List String :=
  (if !az_found then [adoStepInstallCli] else []) ++
  (if !ext_ok then [adoStepAddExt] else []) ++
  (if !azSome then [stepAzLogin] else []) ++
  (if !has_org || !has_project then [adoStepAddConn root] else [])

/-- The Dataverse remediation steps whose prerequisite failed, in source
order (the first step's prerequisite is venv ∧ packages combined). -/
def dataverseFailedSteps (root : String) (vpySome pkgs azSome
    has_tenant : Bool) : List String :=
  (if !vpySome || !pkgs then [dvStepSetup root] else []) ++
  (if !azSome then [stepAzLogin] else []) ++
  (if !has_tenant then [dvStepAddConn root] else [])

theorem truthy_eq_isSome (u : Option String) (hu : u ≠ some "") :
    truthy u = u.isSome := by
  cases u with
  | none => rfl
  | some s =>
    have hs : ¬ (s = "") := fun h => hu (by rw [h])
    simp [truthy, hs]

theorem adoInstructionLines_numbered (root : String) (az_found ext_ok : Bool)
    (az_user : Option String) (has_org has_project : Bool)
    (hu : az_user ≠ some "") :
    adoInstructionLines root az_found ext_ok az_user has_org has_project =
      "To configure Azure DevOps:" ::
        numberLines (adoFailedSteps root az_found ext_ok az_user.isSome
          has_org has_project) := by
  unfold adoInstructionLines
  rw [truthy_eq_isSome az_user hu]
  cases az_found <;> cases ext_ok <;> cases hz : az_user.isSome <;>
    cases has_org <;> cases has_project <;> rfl

theorem dataverseInstructionLines_numbered (root : String)
    (vpy : Option String) (pkgs : Bool) (az_user : Option String)
    (has_tenant : Bool) (hu : az_user ≠ some "") :
    dataverseInstructionLines root vpy pkgs az_user has_tenant =
      "To configure Dataverse:" ::
        numberLines (dataverseFailedSteps root vpy.isSome pkgs
          az_user.isSome has_tenant) := by
  unfold dataverseInstructionLines
  rw [truthy_eq_isSome az_user hu]
  cases vpy <;> cases pkgs <;> cases hz : az_user.isSome <;>
    cases has_tenant <;> rfl

theorem check_ado_instructions_eq (root : String) (conn : Dict)
    (az_found ext_ok : Bool) (az_user : Option String) :
    (check_ado root conn az_found ext_ok az_user).instructions =
      if (check_ado root conn az_found ext_ok az_user).ready then ""
      else String.intercalate "\n"
        (adoInstructionLines root az_found ext_ok az_user
          (truthy (alookup "organization" conn))
          (truthy (alookup "project" conn))) := rfl

theorem check_dataverse_instructions_eq (root : String) (conn : Dict)
    (vpy : Option String) (pkgs : Bool) (az_user : Option String) :
    (check_dataverse root conn vpy pkgs az_user).instructions =
      if (check_dataverse root conn vpy pkgs az_user).ready then ""
      else String.intercalate "\n"
        (dataverseInstructionLines root vpy pkgs az_user
          (truthy (alookup "tenant_id" conn))) := rfl

theorem check_jira_instructions_eq (root : String) (conn : Dict) :
    (check_jira root conn).instructions =
      if (check_jira root conn).ready then ""
      else String.intercalate "\n" (jiraInstructionLines root) := rfl

/-- C8 counterexample: for Jira with a configured server (first check
passed) but missing email/token, the remediation text still contains the
server environment-variable step, and the whole block carries no step
numbering — remediation is a fixed block, not numbered steps skipping
passed prerequisites. -/
theorem check_jira_remediation_not_numbered :
    (check_jira "/plugin" [("server", "https://a.example")]).checks.map
        Check.passed = [true, false, false]
    ∧ "  JIRA_SERVER=https://yourcompany.atlassian.net" ∈
        jiraInstructionLines "/plugin"
    ∧ (check_jira "/plugin" [("server", "https://a.example")]).instructions =
        String.intercalate "\n" (jiraInstructionLines "/plugin")
    ∧ (jiraInstructionLines "/plugin").all
        (fun l => !(strHasPrefix l "  1.")) = true := by
  refine ⟨by decide, by decide, rfl, by decide⟩

/-- C8 amended: ADO and Dataverse remediation is rendered as ordered,
consecutively numbered steps skipping every step whose prerequisite
passed (for ADO the final step's prerequisite is organization ∧ project;
for Dataverse the first step's is venv ∧ packages, and no step corresponds
to the environment-URL check); Jira remediation is a fixed unnumbered
block emitted whenever the provider is not ready, independent of which
checks failed. (`az_user ≠ some ""` holds for every value `_az_logged_in`
can return.) -/
theorem remediation_steps_numbered_and_skipped (root : String) (conn : Dict)
    (az_found ext_ok : Bool) (az_user : Option String) (vpy : Option String)
    (pkgs : Bool) (hu : az_user ≠ some "") :
    ((check_ado root conn az_found ext_ok az_user).ready = false →
      (check_ado root conn az_found ext_ok az_user).instructions =
        String.intercalate "\n" ("To configure Azure DevOps:" ::
          numberLines (adoFailedSteps root az_found ext_ok az_user.isSome
            (truthy (alookup "organization" conn))
            (truthy (alookup "project" conn)))))
    ∧ ((check_dataverse root conn vpy pkgs az_user).ready = false →
      (check_dataverse root conn vpy pkgs az_user).instructions =
        String.intercalate "\n" ("To configure Dataverse:" ::
          numberLines (dataverseFailedSteps root vpy.isSome pkgs
            az_user.isSome (truthy (alookup "tenant_id" conn)))))
    ∧ ((check_jira root conn).ready = false →
      (check_jira root conn).instructions =
        String.intercalate "\n" (jiraInstructionLines root)) := by
  refine ⟨?_, ?_, ?_⟩
  · intro hready
    rw [check_ado_instructions_eq, hready,
      adoInstructionLines_numbered root az_found ext_ok az_user _ _ hu]
    simp
  · intro hready
    rw [check_dataverse_instructions_eq, hready,
      dataverseInstructionLines_numbered root vpy pkgs az_user _ hu]
    simp
  · intro hready
    rw [check_jira_instructions_eq, hready]
    simp

/-- Witness for `remediation_steps_numbered_and_skipped`: ADO with only
the extension missing renders exactly one step, numbered 1. -/
theorem remediation_steps_numbered_and_skipped_witness :
    (check_ado "/plugin" [("organization", "o"), ("project", "p")] true false
        (some "u")).instructions =
      String.intercalate "\n" ("To configure Azure DevOps:" ::
        numberLines (adoFailedSteps "/plugin" true false true true true)) :=
  (remediation_steps_numbered_and_skipped "/plugin"
      [("organization", "o"), ("project", "p")] true false (some "u")
      none false (by decide)).1 (by decide)

/-!
## Flow API discovery (`flow_helpers.py`)

The remote admin (BAP) listing is passed as `remote : Except String (List
BapEnv)`: `.ok envs` models `get_bap_token` + `_api_get` returning the
environment records, `.error` models any exception raised by that pair of
calls (caught by the bare `except Exception`). The per-credential memo
(`_bap_env_cache`) is passed in and returned explicitly. String
`.rstrip("/")`, `.lower()` and `.endswith(...)` are embedded as
structural list-of-characters operations.
-/

/-- A BAP environment record, reduced to the fields the code reads:
`name`, `properties.linkedEnvironmentMetadata.instanceUrl` and
`properties.runtimeEndpoints["microsoft.Flow"]`. -/
structure BapEnv where
  name : String
  instanceUrl : Option String
  flowEndpoint : Option String
deriving DecidableEq

/-- The memo attached to the credential (`_bap_env_cache`). -/
abbrev BapCache := List (String × BapEnv)

/-- `s.rstrip("/")`. -/
def stripTrailingSlashes (s : String) : String :=
  String.mk ((s.toList.reverse.dropWhile (fun c => c = '/')).reverse)

/-- `s.lower()` (ASCII, as in every URL the code handles). -/
def lowerString (s : String) : String :=
  String.mk (s.toList.map Char.toLower)

/-- `url.rstrip("/").lower()` — the discovery-cache key normalization. -/
def normalizeUrl (s : String) : String :=
  lowerString (stripTrailingSlashes s)

/-- Index every returned record by normalized instance URL
(`for env in envs.get("value", []): ...`), skipping records whose
normalized instance URL is empty. -/
def indexEnvs (cache : BapCache) (envs : List BapEnv) : BapCache :=
  envs.foldl
    (fun c e =>
      let iu := normalizeUrl (e.instanceUrl.getD "")
      if iu = "" then c else ainsert iu e c)
    cache

/-- `_find_environment(credential, environment_url)`: memo hit, else list
all environments (or fail), index them all, and look the key up in the
(possibly unchanged) memo. Returns the updated memo and the result;
totality of this function is the "never raises" guarantee (the bare
`except` swallows every remote failure). -/
def find_environment (cache : BapCache)
    (remote : Except String (List BapEnv)) (environment_url : String) :
    BapCache × Option BapEnv :=
  let key := normalizeUrl environment_url
  match alookup key cache with
  | some env => (cache, some env)
  | none =>
    let cache2 :=
      match remote with
      | .ok envs => indexEnvs cache envs
      | .error _ => cache
    (cache2, alookup key cache2)

/-- `_CRM_DOMAIN_TO_FLOW_REGION` in source (insertion) order. -/
def crmDomainToFlowRegion : List (String × String) :=
  [("crm.dynamics.com", "us"), ("crm2.dynamics.com", "us"),
   ("crm3.dynamics.com", "us"), ("crm4.dynamics.com", "emea"),
   ("crm5.dynamics.com", "asia"), ("crm6.dynamics.com", "japan"),
   ("crm7.dynamics.com", "japan"), ("crm8.dynamics.com", "india"),
   ("crm9.dynamics.com", "gov"), ("crm11.dynamics.com", "uk"),
   ("crm12.dynamics.com", "fr"), ("crm14.dynamics.com", "za"),
   ("crm15.dynamics.com", "uae"), ("crm16.dynamics.com", "de"),
   ("crm17.dynamics.com", "che"), ("crm19.dynamics.com", "kor"),
   ("crm20.dynamics.com", "no"), ("crm21.dynamics.com", "sg")]

/-- `host.endswith(domain)`. -/
def strHasSuffix (s pat : String) : Bool := pat.toList.isSuffixOf s.toList

/-- Drop everything up to and including the first `"://"`. -/
def afterScheme : List Char → Option (List Char)
  | [] => none
  | ':' :: '/' :: '/' :: rest => some rest
  | _ :: rest => afterScheme rest

/-- `urlparse(url).hostname or ""` for URLs of the shape
`scheme://host[:port][/path]` (no userinfo, which the code never sees):
the lower-cased host part, or `""` when the URL has no `"://"`. -/
def hostname (url : String) : String :=
  match afterScheme url.toList with
  | none => ""
  | some rest =>
    String.mk (((rest.takeWhile (fun c => c ≠ '/')).takeWhile
      (fun c => c ≠ ':')).map Char.toLower)

/-- The CRM-domain heuristic: first suffix match in table order. -/
def heuristicFlowBase (host : String) : Option String :=
  (crmDomainToFlowRegion.find? (fun p => strHasSuffix host p.1)).map
    (fun p => "https://" ++ p.2 ++ ".api.flow.microsoft.com")

/-- The generic default Flow API base. -/
def flowApiDefault : String := "https://api.flow.microsoft.com"

/-- `discover_flow_api_base(credential, environment_url)`: BAP discovery
(authoritative `runtimeEndpoints["microsoft.Flow"]` when truthy, with
trailing slashes stripped), else the CRM-domain heuristic, else the
generic default. Returns the updated memo and the base URL. -/
def discover_flow_api_base (cache : BapCache)
    (remote : Except String (List BapEnv)) (environment_url : String) :
    BapCache × String :=
  let r := find_environment cache remote environment_url
  let authoritative : Option String :=
    match r.2 with
    | some env =>
      match env.flowEndpoint with
      | some fb => if fb = "" then none else some (stripTrailingSlashes fb)
      | none => none
    | none => none
  match authoritative with
  | some b => (r.1, b)
  | none =>
    match heuristicFlowBase (hostname environment_url) with
    | some b => (r.1, b)
    | none => (r.1, flowApiDefault)

theorem find_environment_of_error (cache : BapCache) (msg url : String)
    (h : alookup (normalizeUrl url) cache = none) :
    find_environment cache (.error msg) url = (cache, none) := by
  simp [find_environment, h]

/-- C4: `_find_environment` is total (never raises) for every remote
outcome, and on remote failure it keeps the memo exactly as it was and
returns the memo lookup — `none` ("not found") whenever the URL was not
already memoized, and the memoized record when it was (in which case the
remote is never consulted). -/
theorem find_environment_never_raises (cache : BapCache)
    (url msg : String) :
    (find_environment cache (.error msg) url).1 = cache
    ∧ (alookup (normalizeUrl url) cache = none →
        (find_environment cache (.error msg) url).2 = none)
    ∧ (∀ env, alookup (normalizeUrl url) cache = some env →
        ∀ remote, find_environment cache remote url = (cache, some env)) := by
  refine ⟨?_, ?_, ?_⟩
  · cases h : alookup (normalizeUrl url) cache <;> simp [find_environment, h]
  · intro h
    rw [find_environment_of_error cache msg url h]
  · intro env h remote
    simp [find_environment, h]

/-- Witness for `find_environment_never_raises` at an empty memo. -/
theorem find_environment_never_raises_witness :
    (find_environment [] (.error "boom") "https://x.crm.dynamics.com").1 = []
    ∧ (find_environment [] (.error "boom") "https://x.crm.dynamics.com").2 = none :=
  ⟨(find_environment_never_raises [] "https://x.crm.dynamics.com" "boom").1,
   (find_environment_never_raises [] "https://x.crm.dynamics.com" "boom").2.1 rfl⟩

/-- C5: with the admin API unreachable (remote raises) or returning no
record at all, `discover_flow_api_base` for
`https://org.crm4.dynamics.com` returns the Europe-region base URL, which
differs from the generic default: the host-suffix heuristic precedes the
final default. -/
theorem discover_flow_api_base_crm4_emea (msg : String) :
    (discover_flow_api_base [] (.error msg)
        "https://org.crm4.dynamics.com").2 = "https://emea.api.flow.microsoft.com"
    ∧ (discover_flow_api_base [] (.ok [])
        "https://org.crm4.dynamics.com").2 = "https://emea.api.flow.microsoft.com"
    ∧ ("https://emea.api.flow.microsoft.com" : String) ≠ flowApiDefault :=
  ⟨rfl, rfl, by decide⟩

/-- C6: the discovery cache is keyed by the normalized
(lower-cased, trailing-slash-stripped) URL, so `_find_environment`
behaves identically on any two URLs with the same normalization; and an
entry indexed from a record's differently-spelled instance URL is hit by
a lookup of an equivalent URL. -/
theorem find_environment_normalizes_keys (u1 u2 : String)
    (h : normalizeUrl u1 = normalizeUrl u2) (cache : BapCache)
    (remote : Except String (List BapEnv)) :
    find_environment cache remote u1 = find_environment cache remote u2
    ∧ (∀ e : BapEnv, normalizeUrl (e.instanceUrl.getD "") = normalizeUrl u1 →
        normalizeUrl u1 ≠ "" →
        alookup (normalizeUrl u1) cache = none →
        (find_environment cache (.ok [e]) u1).2 = some e) := by
  constructor
  · simp only [find_environment]
    rw [h]
  · intro e he hne hmiss
    simp only [find_environment, hmiss]
    show alookup (normalizeUrl u1) (indexEnvs cache [e]) = some e
    unfold indexEnvs
    simp only [List.foldl]
    rw [he, if_neg hne]
    exact alookup_ainsert_self _ _ _

/-- Witness for `find_environment_normalizes_keys`:
`HTTPS://Org.CRM.com/` and `https://org.crm.com` hit the same entry, and
the entry created for the record spelled `HTTPS://Org.CRM.com/` is found
by looking up `https://org.crm.com`. -/
theorem find_environment_normalizes_keys_witness :
    find_environment [] (.ok [⟨"E", some "HTTPS://Org.CRM.com/", none⟩])
        "HTTPS://Org.CRM.com/" =
      find_environment [] (.ok [⟨"E", some "HTTPS://Org.CRM.com/", none⟩])
        "https://org.crm.com"
    ∧ (find_environment [] (.ok [⟨"E", some "HTTPS://Org.CRM.com/", none⟩])
        "https://org.crm.com").2 = some ⟨"E", some "HTTPS://Org.CRM.com/", none⟩ :=
  ⟨(find_environment_normalizes_keys "HTTPS://Org.CRM.com/"
      "https://org.crm.com" (by decide) [] _).1,
   (find_environment_normalizes_keys "https://org.crm.com"
      "https://org.crm.com" rfl [] (.ok [⟨"E", some "HTTPS://Org.CRM.com/", none⟩])).2
     ⟨"E", some "HTTPS://Org.CRM.com/", none⟩ (by decide) (by decide) rfl⟩

/-!
## Flow identity resolution (`flow_helpers.py`, `resolve_flow_id`)

`query` stands for `query_odata(client, "workflow", select=[...],
filter_expr, top=1)`: the rows the data platform returns for a filter
expression (at most one, because of `top=1`; only the head is ever
read). Both failure modes are Python `ValueError`s; the embedded error
type tags the two raise sites with the spec's taxonomy names.
-/

/-- A row of the `workflow` metadata table (the three selected columns). -/
structure FlowRec where
  workflowid : String
  resourceid : String
  name : String
deriving DecidableEq

/-- The dict `resolve_flow_id` returns. -/
structure FlowIdentity where
  workflowid : String
  resourceid : String
  name : String
deriving DecidableEq

/-- The two `ValueError` raise sites of `resolve_flow_id`, tagged with
the spec's error taxonomy. -/
inductive FlowError where
  | invalidArgument (msg : String)
  | notFound (msg : String)
deriving DecidableEq

/-- Query for a filter expression and read the first row, or raise
NotFound. -/
def flowQueryStep (query : String → List FlowRec) (filter_expr : String) :
    Except FlowError FlowIdentity :=
  match query filter_expr with
  | [] => .error (.notFound ("No cloud flow found matching filter: " ++ filter_expr))
  | r :: _ => .ok ⟨r.workflowid, r.resourceid, r.name⟩

/-- `resolve_flow_id(client, flow_name, workflow_id)`. -/
def resolve_flow_id (query : String → List FlowRec)
    (flow_name workflow_id : Option String) : Except FlowError FlowIdentity :=
  if truthy flow_name then
    flowQueryStep query
      ("name eq \x27" ++ flow_name.getD "" ++ "\x27 and category eq 5")
  else if truthy workflow_id then
    flowQueryStep query
      ("workflowid eq " ++ workflow_id.getD "" ++ " and category eq 5")
  else
    .error (.invalidArgument "Either flow_name or workflow_id is required")

/-- C9: `resolve_flow_id` raises InvalidArgument immediately — issuing no
query (the result is the same for every query oracle) — when neither
identifier is truthy; otherwise it queries with the supplied name or id
conjoined with the fixed `category eq 5` marker, raises NotFound exactly
when that query returns zero rows, and returns the first row's
`workflowid`/`resourceid`/`name` otherwise. -/
theorem resolve_flow_id_spec (query : String → List FlowRec)
    (flow_name workflow_id : Option String) :
    (truthy flow_name = false → truthy workflow_id = false →
      resolve_flow_id query flow_name workflow_id =
        .error (.invalidArgument "Either flow_name or workflow_id is required")
      ∧ ∀ query2, resolve_flow_id query flow_name workflow_id =
          resolve_flow_id query2 flow_name workflow_id)
    ∧ (truthy flow_name = true →
      resolve_flow_id query flow_name workflow_id =
        flowQueryStep query
          ("name eq \x27" ++ flow_name.getD "" ++ "\x27 and category eq 5"))
    ∧ (truthy flow_name = false → truthy workflow_id = true →
      resolve_flow_id query flow_name workflow_id =
        flowQueryStep query
          ("workflowid eq " ++ workflow_id.getD "" ++ " and category eq 5"))
    ∧ (∀ fe, query fe = [] →
      flowQueryStep query fe =
        .error (.notFound ("No cloud flow found matching filter: " ++ fe)))
    ∧ (∀ fe r rest, query fe = r :: rest →
      flowQueryStep query fe = .ok ⟨r.workflowid, r.resourceid, r.name⟩) := by
  refine ⟨?_, ?_, ?_, ?_, ?_⟩
  · intro h1 h2
    constructor
    · simp [resolve_flow_id, h1, h2]
    · intro query2
      simp [resolve_flow_id, h1, h2]
  · intro h1
    simp [resolve_flow_id, h1]
  · intro h1 h2
    simp [resolve_flow_id, h1, h2]
  · intro fe hq
    simp [flowQueryStep, hq]
  · intro fe r rest hq
    simp [flowQueryStep, hq]

/-- Witness for `resolve_flow_id_spec` covering all three outcomes at
concrete oracles. -/
theorem resolve_flow_id_spec_witness :
    resolve_flow_id (fun _ => []) none none =
      .error (.invalidArgument "Either flow_name or workflow_id is required")
    ∧ resolve_flow_id (fun _ => []) (some "My Flow") none =
      .error (.notFound
        "No cloud flow found matching filter: name eq \x27My Flow\x27 and category eq 5")
    ∧ resolve_flow_id (fun _ => [⟨"w1", "r1", "My Flow"⟩]) (some "My Flow") none =
      .ok ⟨"w1", "r1", "My Flow"⟩ :=
  ⟨((resolve_flow_id_spec (fun _ => []) none none).1 rfl rfl).1,
   by
    rw [(resolve_flow_id_spec (fun _ => []) (some "My Flow") none).2.1 (by decide)]
    rfl,
   by
    rw [(resolve_flow_id_spec (fun _ => [⟨"w1", "r1", "My Flow"⟩])
      (some "My Flow") none).2.1 (by decide)]
    rfl⟩

/-!
## Persisted-store saves (`preflight.py`, `save_config` /
`save_connections` / `save_workspace`)

File-system effects are modelled explicitly: an `FS α` holds the set of
existing directories, the files (path → record), and whether `os.chmod`
succeeds (`chmodOk = false` models the `OSError` the code swallows).
`json.dump(data, f, indent=2)` is modelled by recording the data and the
indent chosen at the call site; `open(path, "w")` fails when the parent
directory does not exist (Python's `FileNotFoundError`) and otherwise
writes, preserving an existing file's permission bits (new files get
0o644 = 420); `Path.mkdir(parents=True, exist_ok=True)` adds the
directory and all its ancestors. `root` stands for `PLUGIN_ROOT` and
`cwd` for `Path.cwd()`.
-/

/-- A stored file: its JSON payload, the indent it was dumped with, and
its permission bits. -/
structure FSFile (α : Type) where
  data : α
  indent : Option Nat
  mode : Nat
deriving DecidableEq

/-- The file-system state. -/
structure FS (α : Type) where
  dirs : List String
  files : List (String × FSFile α)
  chmodOk : Bool
deriving DecidableEq

/-- Everything before the final `/` of a path. -/
def parentDir (p : String) : String :=
  String.mk (((p.toList.reverse.dropWhile (fun c => c ≠ '/')).drop 1).reverse)

/-- The ancestors of a path, by iterating `parentDir` (fuel-bounded). -/
def ancestorChain : Nat → String → List String
  | 0, _ => []
  | n + 1, p => if p = "" then [] else p :: ancestorChain n (parentDir p)

/-- `Path.mkdir(parents=True, exist_ok=True)`: add the directory and all
its ancestors; files are untouched. -/
def mkdirParents {α : Type} (fs : FS α) (dir : String) : FS α :=
  ⟨fs.dirs ++ dir :: ancestorChain dir.length (parentDir dir),
   fs.files, fs.chmodOk⟩

/-- The permission bits `open(p, "w")` leaves on the file: an existing
file keeps its mode; a new file gets 0o644. -/
def oldModeOf {α : Type} (fs : FS α) (p : String) : Nat :=
  match alookup p fs.files with
  | some f => f.mode
  | none => 420

/-- `open(p, "w")` + `json.dump(d, f, indent)`: fails with
`FileNotFoundError` when the parent directory is missing. -/
def writeJson {α : Type} (fs : FS α) (p : String) (d : α)
    (indent : Option Nat) : Except String (FS α) :=
  if parentDir p ∈ fs.dirs then
    .ok ⟨fs.dirs, ainsert p ⟨d, indent, oldModeOf fs p⟩ fs.files, fs.chmodOk⟩
  else .error "FileNotFoundError"

/-- `os.chmod(p, m)` wrapped in `try/except OSError: pass`: a no-op when
chmod fails (or the file is missing). -/
def chmodIfPossible {α : Type} (fs : FS α) (p : String) (m : Nat) : FS α :=
  if fs.chmodOk then
    match alookup p fs.files with
    | some f => ⟨fs.dirs, ainsert p ⟨f.data, f.indent, m⟩ fs.files, fs.chmodOk⟩
    | none => fs
  else fs

/-- `CONFIG_PATH = PLUGIN_ROOT / "config.json"`. -/
def configPath (root : String) : String := root ++ "/config.json"

/-- `CONNECTIONS_PATH = PLUGIN_ROOT / "connections.json"`. -/
def connectionsPath (root : String) : String := root ++ "/connections.json"

/-- `_workspace_config_path() = Path.cwd() / "ops" / "opskit.json"`. -/
def workspacePath (cwd : String) : String := cwd ++ "/ops/opskit.json"

/-- `save_config(data)`: plain pretty-JSON write, no mkdir, no chmod. -/
def save_config {α : Type} (root : String) (d : α) (fs : FS α) :
    Except String (FS α) :=
  writeJson fs (configPath root) d (some 2)

/-- `save_connections(data)`: pretty-JSON write (no mkdir), then
best-effort `os.chmod(CONNECTIONS_PATH, 0o600)`. -/
def save_connections {α : Type} (root : String) (d : α) (fs : FS α) :
    Except String (FS α) :=
  (writeJson fs (connectionsPath root) d (some 2)).map
    (fun fs2 => chmodIfPossible fs2 (connectionsPath root) 384)

/-- `save_workspace(data)`: `path.parent.mkdir(parents=True,
exist_ok=True)` then pretty-JSON write. -/
def save_workspace {α : Type} (cwd : String) (d : α) (fs : FS α) :
    Except String (FS α) :=
  writeJson (mkdirParents fs (parentDir (workspacePath cwd)))
    (workspacePath cwd) d (some 2)

/-- C7 counterexample: with the plugin directory missing, `save_config`
and `save_connections` fail with `FileNotFoundError` instead of creating
the missing parent directories — only `save_workspace` creates parents. -/
theorem save_config_no_mkdir :
    save_config "/plugin" (0 : Nat) (⟨[], [], true⟩ : FS Nat) =
      .error "FileNotFoundError"
    ∧ save_connections "/plugin" (0 : Nat) (⟨[], [], true⟩ : FS Nat) =
      .error "FileNotFoundError"
    ∧ ∃ fs3, save_workspace "/cwd" (0 : Nat) (⟨[], [], true⟩ : FS Nat) = .ok fs3 :=
  ⟨rfl, rfl, ⟨_, rfl⟩⟩

/-- C7 amended: `save_workspace` creates the missing parent directories
before writing; `save_config` and `save_connections` write to
plugin-root paths without creating directories (when the parent exists
they succeed, leaving the directory set unchanged). All three write
2-space-indented pretty JSON. Only `save_connections` then restricts the
file to owner read/write (0o600), succeeding and leaving the previous
mode whenever chmod fails; the other two saves never touch the mode. -/
theorem saves_create_dirs_write_pretty_chmod {α : Type} (root cwd : String)
    (d : α) (fs : FS α) :
    (parentDir (configPath root) ∈ fs.dirs →
      save_config root d fs = .ok ⟨fs.dirs,
        ainsert (configPath root)
          ⟨d, some 2, oldModeOf fs (configPath root)⟩ fs.files,
        fs.chmodOk⟩)
    ∧ (parentDir (connectionsPath root) ∈ fs.dirs →
      ∃ fs2, save_connections root d fs = .ok fs2
        ∧ fs2.dirs = fs.dirs
        ∧ alookup (connectionsPath root) fs2.files =
          some ⟨d, some 2,
            if fs.chmodOk then 384 else oldModeOf fs (connectionsPath root)⟩)
    ∧ (∃ fs3, save_workspace cwd d fs = .ok fs3
        ∧ alookup (workspacePath cwd) fs3.files =
          some ⟨d, some 2, oldModeOf fs (workspacePath cwd)⟩
        ∧ parentDir (workspacePath cwd) ∈ fs3.dirs) := by
  refine ⟨?_, ?_, ?_⟩
  · intro h
    unfold save_config writeJson
    rw [if_pos h]
  · intro h
    unfold save_connections writeJson
    rw [if_pos h]
    simp only [Except.map]
    refine ⟨_, rfl, ?_, ?_⟩
    · unfold chmodIfPossible
      cases hc : fs.chmodOk <;> simp [alookup_ainsert_self]
    · unfold chmodIfPossible
      cases hc : fs.chmodOk
      · simp only [Bool.false_eq_true, if_neg]
        simp [alookup_ainsert_self]
      · simp only [if_pos]
        rw [alookup_ainsert_self]
        simp [alookup_ainsert_self]
  · unfold save_workspace writeJson
    have hm : parentDir (workspacePath cwd) ∈
        (mkdirParents fs (parentDir (workspacePath cwd))).dirs := by
      simp [mkdirParents]
    rw [if_pos hm]
    refine ⟨_, rfl, ?_, ?_⟩
    · show alookup (workspacePath cwd)
        (ainsert (workspacePath cwd) _ fs.files) = _
      rw [alookup_ainsert_self]
      rfl
    · exact hm

/-- Witness for `saves_create_dirs_write_pretty_chmod` on a concrete
file system whose plugin directory exists. -/
theorem saves_create_dirs_write_pretty_chmod_witness :
    save_config "/plugin" (0 : Nat) (⟨["/plugin"], [], true⟩ : FS Nat) =
      .ok ⟨["/plugin"], [("/plugin/config.json", ⟨0, some 2, 420⟩)], true⟩ :=
  (saves_create_dirs_write_pretty_chmod "/plugin" "/cwd" 0
    (⟨["/plugin"], [], true⟩ : FS Nat)).1 (by decide)
